import Mathlib

/-!
Verification of the maptoposter geospatial rendering pipeline.

Shallow embedding of the relevant parts of the repository:
  * `poster_util.py`: `get_edge_colors_by_type`, `get_edge_widths_by_type`,
    `get_crop_limits`;
  * `map_to_poster_main.py`: the fetch-and-viewport skeleton of
    `create_poster`, the rail-feature grouping styles, the title font
    sizing;
  * `poster_text.py`: `is_latin_script`;
  * `fetch_data.py`: `fetch_graph`, `fetch_features`.

Numbers are modelled with `ℚ` (Python floats whose values here are exact
decimals), tag bags with an explicit absent/single/list datatype mirroring
what OSM data can put under a key, and fallible fetches with
`Option`/`Except`.  The external theme dictionary is kept abstract by
returning the semantic color role instead of the looked-up color.
-/

namespace MapToPoster

/-- A value stored under one key of an OSM tag bag: the key can be missing,
hold a single string, or hold a list of strings
(`data.get("railway")` in `poster_util.py` yields `None`, a `str`,
or a `list`). -/
inductive TagVal where
  | absent : TagVal
  | single : String → TagVal
  | many : List String → TagVal
deriving DecidableEq, Repr

/-- The semantic color roles of the theme dictionary used by the edge
classifiers in `poster_util.py` (the theme maps each role to a concrete
color; the theme is an external read-only input, so the embedding keeps
the role itself). -/
inductive Role where
  | rail_heavy
  | rail_light
  | rail_special
  | rail_service
  | rail_default
  | road_motorway
  | road_primary
  | road_secondary
  | road_tertiary
  | road_residential
  | road_default
deriving DecidableEq, Repr

/-- The tag bag of one graph edge, restricted to the two keys the edge
classifiers read (`highway` and `railway`). -/
structure EdgeData where
  highway : TagVal
  railway : TagVal
deriving DecidableEq, Repr

/-- Railway tag normalization shared by both classifiers in
`poster_util.py`: `railway = data.get("railway")` followed by
`railway = railway[0] if railway else None` when the value is a list. -/
def railwayNorm : TagVal → Option String
  | TagVal.absent => none
  | TagVal.single s => some s
  | TagVal.many [] => none
  | TagVal.many (s :: _) => some s

/-- Python truthiness of the normalized railway value, as tested by
`if railway:` — `None` and the empty string are both falsy. -/
def pyTruthy : Option String → Bool
  | none => false
  | some s => !s.isEmpty

/-- Highway tag normalization shared by both classifiers:
`highway = data.get("highway", "unclassified")` followed by
`highway = highway[0] if highway else "unclassified"` when the value
is a list. -/
def highwayNorm : TagVal → String
  | TagVal.absent => "unclassified"
  | TagVal.single s => s
  | TagVal.many [] => "unclassified"
  | TagVal.many (s :: _) => s

/-- Loop body of `get_edge_colors_by_type` (`poster_util.py`): railway
handling takes precedence and `continue`s past the highway handling;
otherwise the highway chain runs.  Returns the theme role looked up for
the edge. -/
def edgeColorOf (data : EdgeData) : Role :=
  let railway := railwayNorm data.railway
  if pyTruthy railway then
    let r := railway.getD ""
    if r = "rail" ∨ r = "subway" then Role.rail_heavy
    else if r = "light_rail" ∨ r = "tram" then Role.rail_light
    else if r = "narrow_gauge" ∨ r = "funicular" ∨ r = "monorail" then Role.rail_special
    else if r = "service" ∨ r = "yard" ∨ r = "siding" then Role.rail_service
    else Role.rail_default
  else
    let highway := highwayNorm data.highway
    if highway = "motorway" ∨ highway = "motorway_link" then Role.road_motorway
    else if highway = "trunk" ∨ highway = "trunk_link" ∨ highway = "primary" ∨ highway = "primary_link" then Role.road_primary
    else if highway = "secondary" ∨ highway = "secondary_link" then Role.road_secondary
    else if highway = "tertiary" ∨ highway = "tertiary_link" then Role.road_tertiary
    else if highway = "residential" ∨ highway = "living_street" ∨ highway = "unclassified" then Role.road_residential
    else Role.road_default

/-- Loop body of `get_edge_widths_by_type` (`poster_util.py`).  Note that
the highway chain of this function has no arm for
`residential`/`living_street`/`unclassified`: those values fall through to
the final `else` with width `0.4`. -/
def edgeWidthOf (data : EdgeData) : ℚ :=
  let railway := railwayNorm data.railway
  if pyTruthy railway then
    let r := railway.getD ""
    if r = "rail" ∨ r = "subway" then 1.0
    else if r = "light_rail" ∨ r = "tram" then 0.8
    else if r = "narrow_gauge" ∨ r = "funicular" ∨ r = "monorail" then 0.6
    else if r = "service" ∨ r = "yard" ∨ r = "siding" then 0.4
    else 0.5
  else
    let highway := highwayNorm data.highway
    if highway = "motorway" ∨ highway = "motorway_link" then 1.2
    else if highway = "trunk" ∨ highway = "trunk_link" ∨ highway = "primary" ∨ highway = "primary_link" then 1.0
    else if highway = "secondary" ∨ highway = "secondary_link" then 0.8
    else if highway = "tertiary" ∨ highway = "tertiary_link" then 0.6
    else 0.4

/-- `get_edge_colors_by_type`: one color per edge, in edge-iteration
order. -/
def get_edge_colors_by_type (g : List EdgeData) : List Role :=
  g.map edgeColorOf

/-- `get_edge_widths_by_type`: one width per edge, in edge-iteration
order. -/
def get_edge_widths_by_type (g : List EdgeData) : List ℚ :=
  g.map edgeWidthOf

/-- The arm of a classifier chain that fires for a given edge.  Both
classifiers share the rail arms; the width chain has no `residential`
arm. -/
inductive Branch where
  | railHeavy
  | railLight
  | railSpecial
  | railService
  | railDefault
  | motorway
  | trunkPrimary
  | secondary
  | tertiary
  | residential
  | highwayDefault
deriving DecidableEq, Repr

/-- Instrumentation of the `get_edge_colors_by_type` chain: records which
arm of the source's if/elif chain fires for the edge. -/
def colorBranchOf (data : EdgeData) : Branch :=
  let railway := railwayNorm data.railway
  if pyTruthy railway then
    let r := railway.getD ""
    if r = "rail" ∨ r = "subway" then Branch.railHeavy
    else if r = "light_rail" ∨ r = "tram" then Branch.railLight
    else if r = "narrow_gauge" ∨ r = "funicular" ∨ r = "monorail" then Branch.railSpecial
    else if r = "service" ∨ r = "yard" ∨ r = "siding" then Branch.railService
    else Branch.railDefault
  else
    let highway := highwayNorm data.highway
    if highway = "motorway" ∨ highway = "motorway_link" then Branch.motorway
    else if highway = "trunk" ∨ highway = "trunk_link" ∨ highway = "primary" ∨ highway = "primary_link" then Branch.trunkPrimary
    else if highway = "secondary" ∨ highway = "secondary_link" then Branch.secondary
    else if highway = "tertiary" ∨ highway = "tertiary_link" then Branch.tertiary
    else if highway = "residential" ∨ highway = "living_street" ∨ highway = "unclassified" then Branch.residential
    else Branch.highwayDefault

/-- Instrumentation of the `get_edge_widths_by_type` chain: records which
arm fires.  The source chain tests motorway, trunk/primary, secondary and
tertiary and then falls to `else`; there is no residential arm. -/
def widthBranchOf (data : EdgeData) : Branch :=
  let railway := railwayNorm data.railway
  if pyTruthy railway then
    let r := railway.getD ""
    if r = "rail" ∨ r = "subway" then Branch.railHeavy
    else if r = "light_rail" ∨ r = "tram" then Branch.railLight
    else if r = "narrow_gauge" ∨ r = "funicular" ∨ r = "monorail" then Branch.railSpecial
    else if r = "service" ∨ r = "yard" ∨ r = "siding" then Branch.railService
    else Branch.railDefault
  else
    let highway := highwayNorm data.highway
    if highway = "motorway" ∨ highway = "motorway_link" then Branch.motorway
    else if highway = "trunk" ∨ highway = "trunk_link" ∨ highway = "primary" ∨ highway = "primary_link" then Branch.trunkPrimary
    else if highway = "secondary" ∨ highway = "secondary_link" then Branch.secondary
    else if highway = "tertiary" ∨ highway = "tertiary_link" then Branch.tertiary
    else Branch.highwayDefault

/-- Modelled from the spec: the style table of section 6 ("must match
exactly"), as (color-role, width) rows, rail rows first. -/
def styleTableSpec : List (Role × ℚ) :=
  [(Role.rail_heavy, 1.0), (Role.rail_light, 0.8), (Role.rail_special, 0.6),
   (Role.rail_service, 0.4), (Role.rail_default, 0.5),
   (Role.road_motorway, 1.2), (Role.road_primary, 1.0),
   (Role.road_secondary, 0.8), (Role.road_tertiary, 0.6),
   (Role.road_residential, 0.4), (Role.road_default, 0.4)]

/-- The per-group style chain of the compositor's railway-feature loop in
`create_poster` (`map_to_poster_main.py`, the `rail_lines.groupby`
block): color role and the width computed for the group.  (The source
computes this width but does not pass it to the `group.plot` call.) -/
def railGroupStyle (railway_type : String) : Role × ℚ :=
  if railway_type = "rail" ∨ railway_type = "subway" then (Role.rail_heavy, 1.0)
  else if railway_type = "light_rail" ∨ railway_type = "tram" then (Role.rail_light, 0.7)
  else if railway_type = "narrow_gauge" ∨ railway_type = "funicular" ∨ railway_type = "monorail" then (Role.rail_special, 0.6)
  else if railway_type = "service" ∨ railway_type = "yard" ∨ railway_type = "siding" then (Role.rail_service, 0.4)
  else (Role.rail_default, 0.5)

/-- `get_crop_limits` (`poster_util.py`), with the already-projected
center passed as `(center_x, center_y)` (the source projects the
geographic center through the external `ox.projection` first) and the
figure size passed as the two numbers `fig.get_size_inches()` returns.
Starts from the requested radius on both axes and cuts one axis inward to
match the aspect ratio. -/
def get_crop_limits (center_x center_y fig_width fig_height dist : ℚ) :
    (ℚ × ℚ) × (ℚ × ℚ) :=
  let aspect := fig_width / fig_height
  let half_x : ℚ := dist
  let half_y : ℚ := dist
  let halves := if aspect > 1 then (half_x, half_x / aspect) else (half_y * aspect, half_y)
  ((center_x - halves.1, center_x + halves.1),
   (center_y - halves.2, center_y + halves.2))

/-- Half-extents of a viewport rectangle `((x_min, x_max), (y_min, y_max))`. -/
def viewportHalfExtents (r : (ℚ × ℚ) × (ℚ × ℚ)) : ℚ × ℚ :=
  ((r.1.2 - r.1.1) / 2, (r.2.2 - r.2.1) / 2)

/-- The distance actually used by `create_poster`
(`map_to_poster_main.py`):
`compensated_dist = dist * (max(height, width) / min(height, width)) / 4`. -/
def compensated_dist (dist width height : ℚ) : ℚ :=
  dist * (max height width / min height width) / 4

/-- `fetch_graph` (`fetch_data.py`): cache hit returns the cached graph;
otherwise the remote call either succeeds (`Except.ok`) or fails, in
which case the error is logged and `None` is returned — never raised.
The remote call and the cache lookup are external effects, passed in as
their results. -/
def fetch_graph {G : Type} (cached : Option G) (remote : Except String G) :
    Option G :=
  match cached with
  | some g => some g
  | none =>
    match remote with
    | Except.ok g => some g
    | Except.error _ => none

/-- `fetch_features` (`fetch_data.py`): same cache-then-remote discipline
as `fetch_graph`; any remote error is logged and surfaced as `none`. -/
def fetch_features {F : Type} (cached : Option F) (remote : Except String F) :
    Option F :=
  match cached with
  | some d => some d
  | none =>
    match remote with
    | Except.ok d => some d
    | Except.error _ => none

/-- Observable outcome of the fetch-and-viewport part of `create_poster`:
the computed crop limits, and which optional layers were available for
plotting. -/
structure RenderResult where
  crop_xlim : ℚ × ℚ
  crop_ylim : ℚ × ℚ
  hasWater : Bool
  hasParks : Bool
  hasRailways : Bool
deriving DecidableEq, Repr

/-- The fetch-and-viewport skeleton of `create_poster`
(`map_to_poster_main.py`): computes `compensated_dist`, fetches the graph
(raising `RuntimeError`, modelled as `Except.error`, when it is absent),
fetches water/parks/railways — each of which may independently be absent
without aborting — and computes the crop limits from the projected
center, the figure size and `compensated_dist`.  The actual plotting is
the external backend; an optional layer is plotted exactly when its
fetch returned a value, which the result records as a flag. -/
def create_poster {G F : Type} (center_x center_y dist width height : ℚ)
    (graphCached : Option G) (graphRemote : Except String G)
    (waterCached : Option F) (waterRemote : Except String F)
    (parksCached : Option F) (parksRemote : Except String F)
    (railwaysCached : Option F) (railwaysRemote : Except String F) :
    Except String RenderResult :=
  let cdist := compensated_dist dist width height
  match fetch_graph graphCached graphRemote with
  | none => Except.error "Failed to retrieve street network data."
  | some _ =>
    let water := fetch_features waterCached waterRemote
    let parks := fetch_features parksCached parksRemote
    let railways := fetch_features railwaysCached railwaysRemote
    let crop := get_crop_limits center_x center_y width height cdist
    Except.ok
      { crop_xlim := crop.1, crop_ylim := crop.2,
        hasWater := water.isSome, hasParks := parks.isSome,
        hasRailways := railways.isSome }

/-- `is_latin_script` (`poster_text.py`).  Characters are Lean `Char`s;
Python's Unicode `str.isalpha` is an external classifier passed in as
`isalpha`.  The loop counters become `countP` over the text; the final
float comparison `latin_count / total_alpha > 0.8` is exact over `ℚ`
(`0.8` is a short decimal and realistic counts are far below the scale
where double rounding could flip the comparison). -/
def is_latin_script (isalpha : Char → Bool) (text : List Char) : Bool :=
  if text.isEmpty then true
  else
    let latin_count := text.countP fun c => isalpha c && decide (c.toNat < 0x250)
    let total_alpha := text.countP fun c => isalpha c
    if total_alpha = 0 then true
    else decide (((latin_count : ℚ) / (total_alpha : ℚ)) > 0.8)

/-- The dynamic main-title font size of `create_poster`
(`map_to_poster_main.py`): `scale_factor = min(height, width) / 12.0`,
`base_main = 60`; names longer than 10 characters are scaled by
`10 / length`, floored at `10 * scale_factor`. -/
def adjusted_font_size (display_city : List Char) (width height : ℚ) : ℚ :=
  let scale_factor := min height width / 12
  let base_main : ℚ := 60
  let base_adjusted_main := base_main * scale_factor
  let city_char_count := display_city.length
  if city_char_count > 10 then
    let length_factor := (10 : ℚ) / (city_char_count : ℚ)
    max (base_adjusted_main * length_factor) (10 * scale_factor)
  else
    base_adjusted_main

/-! ## Helper lemmas -/

/-- Closed form of `get_crop_limits`: the `aspect > 1` branch keeps the
horizontal half-extent at `dist` and divides the vertical one by the
aspect; the other branch multiplies the horizontal one by the aspect. -/
lemma get_crop_limits_eq (center_x center_y fig_width fig_height dist : ℚ) :
    get_crop_limits center_x center_y fig_width fig_height dist =
      if fig_width / fig_height > 1 then
        ((center_x - dist, center_x + dist),
         (center_y - dist / (fig_width / fig_height),
          center_y + dist / (fig_width / fig_height)))
      else
        ((center_x - dist * (fig_width / fig_height),
          center_x + dist * (fig_width / fig_height)),
         (center_y - dist, center_y + dist)) := by
  simp only [get_crop_limits]
  split <;> rfl

/-! ## Claims -/

/-- C3: the crop-geometry computation starts from a square half-extent
equal to the radius, shrinks the vertical half-extent to
`radius / aspect` when `aspect > 1` (horizontal stays at the radius),
shrinks the horizontal half-extent to `radius * aspect` when
`aspect < 1` (vertical stays at the radius), and leaves both at the
radius when `aspect = 1`. -/
theorem C3_crop_algorithm (center_x center_y fig_width fig_height dist : ℚ) :
    (fig_width / fig_height > 1 →
      get_crop_limits center_x center_y fig_width fig_height dist =
        ((center_x - dist, center_x + dist),
         (center_y - dist / (fig_width / fig_height),
          center_y + dist / (fig_width / fig_height)))) ∧
    (fig_width / fig_height < 1 →
      get_crop_limits center_x center_y fig_width fig_height dist =
        ((center_x - dist * (fig_width / fig_height),
          center_x + dist * (fig_width / fig_height)),
         (center_y - dist, center_y + dist))) ∧
    (fig_width / fig_height = 1 →
      get_crop_limits center_x center_y fig_width fig_height dist =
        ((center_x - dist, center_x + dist),
         (center_y - dist, center_y + dist))) := by
  refine ⟨fun h1 => ?_, fun h1 => ?_, fun h1 => ?_⟩
  · rw [get_crop_limits_eq, if_pos h1]
  · rw [get_crop_limits_eq, if_neg (by linarith)]
  · rw [get_crop_limits_eq, if_neg (by rw [h1]; exact lt_irrefl 1), h1, mul_one]

/-- Witness for C3 at the three concrete aspect regimes 16/12, 12/16
and 12/12 with radius 100 and center (0, 0). -/
theorem C3_crop_algorithm_witness :
    get_crop_limits 0 0 16 12 100 = ((-100, 100), (-75, 75)) ∧
    get_crop_limits 0 0 12 16 100 = ((-75, 75), (-100, 100)) ∧
    get_crop_limits 0 0 12 12 100 = ((-100, 100), (-100, 100)) := by
  refine ⟨?_, ?_, ?_⟩
  · have h := (C3_crop_algorithm 0 0 16 12 100).1 (by norm_num)
    rw [h]; norm_num
  · have h := (C3_crop_algorithm 0 0 12 16 100).2.1 (by norm_num)
    rw [h]; norm_num
  · have h := (C3_crop_algorithm 0 0 12 12 100).2.2 (by norm_num)
    rw [h]; norm_num

/-- C4 counterexample: at radius 100 and aspect 24/12 = 2 (both
positive), the viewport's half-extents are 100 and 50, so its smaller
half-extent is 50, which is not equal to (and is smaller than) the
requested radius 100 — refuting the claimed invariant. -/
theorem C4_counterexample :
    get_crop_limits 0 0 24 12 100 = ((-100, 100), (-50, 50)) ∧
    min (viewportHalfExtents (get_crop_limits 0 0 24 12 100)).1
        (viewportHalfExtents (get_crop_limits 0 0 24 12 100)).2 = 50 ∧
    ¬ ((50 : ℚ) = 100) ∧ (50 : ℚ) < 100 := by
  refine ⟨?_, ?_, by norm_num, by norm_num⟩
  · rw [get_crop_limits_eq, if_pos (by norm_num)]; norm_num
  · rw [get_crop_limits_eq, if_pos (by norm_num)]
    simp only [viewportHalfExtents]; norm_num

/-- C4 (amended): for every radius > 0 and aspect > 0 the viewport's
width/height ratio equals the aspect ratio exactly, and its LARGER
half-extent equals the requested radius (the smaller half-extent is
never larger than the radius — the constrained axis is cut inward). -/
theorem C4_viewport_invariant (center_x center_y fig_width fig_height dist : ℚ)
    (hw : 0 < fig_width) (hh : 0 < fig_height) (hd : 0 < dist) :
    ((get_crop_limits center_x center_y fig_width fig_height dist).1.2 -
        (get_crop_limits center_x center_y fig_width fig_height dist).1.1) /
      ((get_crop_limits center_x center_y fig_width fig_height dist).2.2 -
        (get_crop_limits center_x center_y fig_width fig_height dist).2.1) =
      fig_width / fig_height ∧
    max (viewportHalfExtents (get_crop_limits center_x center_y fig_width fig_height dist)).1
        (viewportHalfExtents (get_crop_limits center_x center_y fig_width fig_height dist)).2 = dist ∧
    min (viewportHalfExtents (get_crop_limits center_x center_y fig_width fig_height dist)).1
        (viewportHalfExtents (get_crop_limits center_x center_y fig_width fig_height dist)).2 ≤ dist := by
  have ha : 0 < fig_width / fig_height := div_pos hw hh
  rcases le_or_lt (fig_width / fig_height) 1 with h1 | h1
  · rw [get_crop_limits_eq, if_neg (not_lt.mpr h1)]
    simp only [viewportHalfExtents]
    have hxe : center_x + dist * (fig_width / fig_height) -
        (center_x - dist * (fig_width / fig_height)) = 2 * (dist * (fig_width / fig_height)) := by
      ring
    have hye : center_y + dist - (center_y - dist) = 2 * dist := by ring
    refine ⟨?_, ?_, ?_⟩
    · rw [hxe, hye]
      field_simp
      ring
    · rw [hxe, hye]
      have hle : dist * (fig_width / fig_height) ≤ dist :=
        mul_le_of_le_one_right hd.le h1
      rw [max_eq_right (by linarith)]
      ring
    · rw [hye]
      have := min_le_right ((center_x + dist * (fig_width / fig_height) -
        (center_x - dist * (fig_width / fig_height))) / 2) ((2 : ℚ) * dist / 2)
      calc min _ ((2 : ℚ) * dist / 2) ≤ (2 : ℚ) * dist / 2 := this
        _ = dist := by ring
  · rw [get_crop_limits_eq, if_pos h1]
    simp only [viewportHalfExtents]
    have hxe : center_x + dist - (center_x - dist) = 2 * dist := by ring
    have hye : center_y + dist / (fig_width / fig_height) -
        (center_y - dist / (fig_width / fig_height)) =
          2 * (dist / (fig_width / fig_height)) := by
      ring
    refine ⟨?_, ?_, ?_⟩
    · rw [hxe, hye]
      rw [div_eq_iff (by positivity)]
      field_simp
      ring
    · rw [hxe, hye]
      have hle : dist / (fig_width / fig_height) ≤ dist :=
        div_le_self hd.le h1.le
      rw [max_eq_left (by linarith)]
      ring
    · rw [hxe]
      have := min_le_left ((2 : ℚ) * dist / 2) ((center_y + dist / (fig_width / fig_height) -
        (center_y - dist / (fig_width / fig_height))) / 2)
      calc min ((2 : ℚ) * dist / 2) _ ≤ (2 : ℚ) * dist / 2 := this
        _ = dist := by ring

/-- Witness for C4 at center (0, 0), figure 24 by 12, radius 100. -/
theorem C4_viewport_invariant_witness :
    ((get_crop_limits 0 0 24 12 100).1.2 - (get_crop_limits 0 0 24 12 100).1.1) /
      ((get_crop_limits 0 0 24 12 100).2.2 - (get_crop_limits 0 0 24 12 100).2.1) =
      (24 : ℚ) / 12 ∧
    max (viewportHalfExtents (get_crop_limits 0 0 24 12 100)).1
        (viewportHalfExtents (get_crop_limits 0 0 24 12 100)).2 = 100 ∧
    min (viewportHalfExtents (get_crop_limits 0 0 24 12 100)).1
        (viewportHalfExtents (get_crop_limits 0 0 24 12 100)).2 ≤ 100 :=
  C4_viewport_invariant 0 0 24 12 100 (by norm_num) (by norm_num) (by norm_num)

/-- C1 counterexample: in the (48.8566, 2.3522) scenario with requested
radius 10000 and figure 12 by 16, `create_poster` does not pass the
requested radius to the crop computation but
`compensated_dist = 10000 * (16/12) / 4 = 10000/3`, so the successful
run yields horizontal half-extent 2500 (not 7500) and vertical
half-extent 10000/3 (not 10000).  Projected center taken as (0, 0);
the projection of the geographic center only translates the rectangle. -/
theorem C1_counterexample :
    create_poster (G := Unit) (F := Unit) 0 0 10000 12 16
        (some ()) (Except.ok ()) (some ()) (Except.ok ())
        (some ()) (Except.ok ()) (some ()) (Except.ok ()) =
      Except.ok ⟨(-2500, 2500), (-10000/3, 10000/3), true, true, true⟩ ∧
    ¬ ((2500 : ℚ) = 7500) ∧ ¬ ((10000 : ℚ) / 3 = 10000) := by
  refine ⟨?_, by norm_num, by norm_num⟩
  have hc : compensated_dist 10000 12 16 = 10000/3 := by
    norm_num [compensated_dist, max_def, min_def]
  simp only [create_poster, hc, get_crop_limits_eq, fetch_graph, fetch_features]
  norm_num

/-- C1 (amended): in the radius-10000, 12-by-16 scenario, whenever the
network fetch succeeds, `create_poster` computes a height-constrained
viewport from `compensated_dist = 10000/3`: horizontal half-extent
`10000/3 * 12/16 = 2500` and vertical half-extent `10000/3`. -/
theorem C1_scenario_viewport {G F : Type} (center_x center_y : ℚ)
    (gc : Option G) (gr : Except String G)
    (wc : Option F) (wrem : Except String F)
    (pc : Option F) (prem : Except String F)
    (rc : Option F) (rrem : Except String F)
    (g : G) (hg : fetch_graph gc gr = some g) :
    create_poster center_x center_y 10000 12 16 gc gr wc wrem pc prem rc rrem =
      Except.ok
        { crop_xlim := (center_x - 2500, center_x + 2500),
          crop_ylim := (center_y - 10000/3, center_y + 10000/3),
          hasWater := (fetch_features wc wrem).isSome,
          hasParks := (fetch_features pc prem).isSome,
          hasRailways := (fetch_features rc rrem).isSome } := by
  have hc : compensated_dist 10000 12 16 = 10000/3 := by
    norm_num [compensated_dist, max_def, min_def]
  simp only [create_poster, hg, hc, get_crop_limits_eq]
  norm_num

/-- Witness for C1 at concrete fetch outcomes (cached graph, water fetch
failing, parks and railways succeeding). -/
theorem C1_scenario_viewport_witness :
    create_poster (G := Unit) (F := Unit) 0 0 10000 12 16
        (some ()) (Except.ok ()) none (Except.error "water down")
        none (Except.ok ()) none (Except.ok ()) =
      Except.ok ⟨(0 - 2500, 0 + 2500), (0 - 10000/3, 0 + 10000/3), false, true, true⟩ := by
  have h := C1_scenario_viewport (G := Unit) (F := Unit) 0 0
    (some ()) (Except.ok ()) none (Except.error "water down")
    none (Except.ok ()) none (Except.ok ()) () rfl
  rw [h]; rfl

/-- C6 counterexample: `get_crop_limits` does not reject a negative
radius — at radius −1 (figure 12 by 16) it returns an ordinary (inverted)
rectangle, and a full `create_poster` run with radius −1 still performs
the fetches and completes with `Except.ok` instead of failing before any
fetch. -/
theorem C6_counterexample :
    get_crop_limits 0 0 12 16 (-1) = ((3/4, -3/4), (1, -1)) ∧
    create_poster (G := Unit) (F := Unit) 0 0 (-1) 12 16
        none (Except.ok ()) none (Except.ok ())
        none (Except.ok ()) none (Except.ok ()) =
      Except.ok ⟨(1/4, -1/4), (1/3, -1/3), true, true, true⟩ := by
  constructor
  · rw [get_crop_limits_eq, if_neg (by norm_num)]; norm_num
  · have hc : compensated_dist (-1) 12 16 = -1/3 := by
      norm_num [compensated_dist, max_def, min_def]
    simp only [create_poster, hc, get_crop_limits_eq, fetch_graph, fetch_features]
    norm_num

/-- C6 (amended): neither `get_crop_limits` nor `create_poster` validates
the radius: for every non-positive radius a run whose network fetch
succeeds proceeds through all fetches and returns a normal result whose
viewport follows the same shrink formula applied to the (non-positive)
compensated distance; there is no `ValueError`-class rejection, before or
after the fetches. -/
theorem C6_no_input_validation {G F : Type}
    (center_x center_y dist width height : ℚ) (hd : dist ≤ 0)
    (gc : Option G) (gr : Except String G)
    (wc : Option F) (wrem : Except String F)
    (pc : Option F) (prem : Except String F)
    (rc : Option F) (rrem : Except String F)
    (g : G) (hg : fetch_graph gc gr = some g) :
    create_poster center_x center_y dist width height gc gr wc wrem pc prem rc rrem =
      Except.ok
        { crop_xlim := (get_crop_limits center_x center_y width height
            (compensated_dist dist width height)).1,
          crop_ylim := (get_crop_limits center_x center_y width height
            (compensated_dist dist width height)).2,
          hasWater := (fetch_features wc wrem).isSome,
          hasParks := (fetch_features pc prem).isSome,
          hasRailways := (fetch_features rc rrem).isSome } := by
  simp only [create_poster, hg]

/-- Witness for C6 at radius −2, figure 12 by 16, successful fetches. -/
theorem C6_no_input_validation_witness :
    create_poster (G := Unit) (F := Unit) 0 0 (-2) 12 16
        (some ()) (Except.ok ()) none (Except.ok ())
        none (Except.ok ()) none (Except.ok ()) =
      Except.ok ⟨(1/2, -1/2), (2/3, -2/3), true, true, true⟩ := by
  have h := C6_no_input_validation (G := Unit) (F := Unit) 0 0 (-2) 12 16
    (by norm_num) (some ()) (Except.ok ()) none (Except.ok ())
    none (Except.ok ()) none (Except.ok ()) () rfl
  rw [h]
  have hc : compensated_dist (-2) 12 16 = -2/3 := by
    norm_num [compensated_dist, max_def, min_def]
  simp only [hc, get_crop_limits_eq, fetch_features]
  norm_num

/-- When the railway tag is truthy, the per-edge (color role, width) pair
is one of the five rail rows of the section-6 table. -/
lemma rail_pair_mem (data : EdgeData)
    (h : pyTruthy (railwayNorm data.railway) = true) :
    (edgeColorOf data, edgeWidthOf data) ∈ styleTableSpec.take 5 := by
  simp only [edgeColorOf, edgeWidthOf, h, if_true]
  split_ifs <;> norm_num [styleTableSpec]

/-- When the railway tag is not truthy, the per-edge (color role, width)
pair is one of the six highway rows of the section-6 table. -/
lemma road_pair_mem (data : EdgeData)
    (h : pyTruthy (railwayNorm data.railway) = false) :
    (edgeColorOf data, edgeWidthOf data) ∈ styleTableSpec.drop 5 := by
  simp only [edgeColorOf, edgeWidthOf, h, Bool.false_eq_true, if_false]
  split_ifs <;> norm_num [styleTableSpec]

/-- Every edge's (color role, width) pair is a row of the section-6
table. -/
lemma pair_mem_styleTableSpec (data : EdgeData) :
    (edgeColorOf data, edgeWidthOf data) ∈ styleTableSpec := by
  cases hb : pyTruthy (railwayNorm data.railway)
  · exact List.mem_of_mem_drop (road_pair_mem data hb)
  · exact List.mem_of_mem_take (rail_pair_mem data hb)

/-- C2: edge classification is total (every tag bag — absent, empty,
single-valued, list-valued or unrecognized, for highway, railway or both
— gets a (color role, width) pair from the style table); a truthy
railway value (first element of a list, empty list as absent, and — per
Python truthiness — empty string as absent) is classified by the rail
rows with the highway tag ignored entirely; an empty railway list
behaves as an absent railway tag; a missing highway tag is classified
like `"unclassified"`; and a list-valued highway tag is classified by
its first element. -/
theorem C2_classification_total_and_rail_precedence :
    (∀ data : EdgeData, (edgeColorOf data, edgeWidthOf data) ∈ styleTableSpec) ∧
    (∀ hw rw : TagVal, pyTruthy (railwayNorm rw) = true →
      (edgeColorOf ⟨hw, rw⟩, edgeWidthOf ⟨hw, rw⟩) ∈ styleTableSpec.take 5 ∧
      edgeColorOf ⟨hw, rw⟩ = edgeColorOf ⟨TagVal.absent, rw⟩ ∧
      edgeWidthOf ⟨hw, rw⟩ = edgeWidthOf ⟨TagVal.absent, rw⟩) ∧
    (∀ hw : TagVal,
      edgeColorOf ⟨hw, TagVal.many []⟩ = edgeColorOf ⟨hw, TagVal.absent⟩ ∧
      edgeWidthOf ⟨hw, TagVal.many []⟩ = edgeWidthOf ⟨hw, TagVal.absent⟩) ∧
    (∀ rw : TagVal,
      edgeColorOf ⟨TagVal.absent, rw⟩ = edgeColorOf ⟨TagVal.single "unclassified", rw⟩ ∧
      edgeWidthOf ⟨TagVal.absent, rw⟩ = edgeWidthOf ⟨TagVal.single "unclassified", rw⟩) ∧
    (∀ (s : String) (l : List String) (rw : TagVal),
      edgeColorOf ⟨TagVal.many (s :: l), rw⟩ = edgeColorOf ⟨TagVal.single s, rw⟩ ∧
      edgeWidthOf ⟨TagVal.many (s :: l), rw⟩ = edgeWidthOf ⟨TagVal.single s, rw⟩) := by
  refine ⟨pair_mem_styleTableSpec, fun hw rw h => ⟨rail_pair_mem ⟨hw, rw⟩ h, ?_, ?_⟩,
    fun hw => ⟨rfl, rfl⟩, fun rw => ⟨rfl, rfl⟩, fun s l rw => ⟨rfl, rfl⟩⟩
  · simp only [edgeColorOf, h, if_true]
  · simp only [edgeWidthOf, h, if_true]

/-- Witness for C2 at a `railway: [subway, service]`, `highway: primary`
edge: classified as heavy rail from the first list element, identically
to the edge with no highway tag at all. -/
theorem C2_classification_witness :
    (edgeColorOf ⟨TagVal.single "primary", TagVal.many ["subway", "service"]⟩,
      edgeWidthOf ⟨TagVal.single "primary", TagVal.many ["subway", "service"]⟩) ∈
        styleTableSpec.take 5 ∧
    edgeColorOf ⟨TagVal.single "primary", TagVal.many ["subway", "service"]⟩ =
      edgeColorOf ⟨TagVal.absent, TagVal.many ["subway", "service"]⟩ := by
  have h := C2_classification_total_and_rail_precedence.2.1
    (TagVal.single "primary") (TagVal.many ["subway", "service"]) rfl
  exact ⟨h.1, h.2.1⟩

/-- C5 counterexample: the compositor's rail-group style chain assigns
light_rail and tram the `rail_light` color role with computed width 0.7,
not the 0.8 of the section-6 style table. -/
theorem C5_counterexample :
    railGroupStyle "light_rail" = (Role.rail_light, 0.7) ∧
    railGroupStyle "tram" = (Role.rail_light, 0.7) ∧
    ¬ ((0.7 : ℚ) = 0.8) := by
  refine ⟨by simp [railGroupStyle], by simp [railGroupStyle], by norm_num⟩

/-- C5 (amended): the compositor's per-subtype rail styles follow its own
fixed table — heavy (rail, subway) → (rail_heavy, 1.0), light
(light_rail, tram) → (rail_light, 0.7), special (narrow_gauge,
funicular, monorail) → (rail_special, 0.6), service (service, yard,
siding) → (rail_service, 0.4), anything else → (rail_default, 0.5) —
which matches the section-6 table except that light rail gets computed
width 0.7; the computed width is moreover not passed on to the plotting
call, which receives only the color. -/
theorem C5_rail_group_table :
    railGroupStyle "rail" = (Role.rail_heavy, 1.0) ∧
    railGroupStyle "subway" = (Role.rail_heavy, 1.0) ∧
    railGroupStyle "light_rail" = (Role.rail_light, 0.7) ∧
    railGroupStyle "tram" = (Role.rail_light, 0.7) ∧
    railGroupStyle "narrow_gauge" = (Role.rail_special, 0.6) ∧
    railGroupStyle "funicular" = (Role.rail_special, 0.6) ∧
    railGroupStyle "monorail" = (Role.rail_special, 0.6) ∧
    railGroupStyle "service" = (Role.rail_service, 0.4) ∧
    railGroupStyle "yard" = (Role.rail_service, 0.4) ∧
    railGroupStyle "siding" = (Role.rail_service, 0.4) ∧
    railGroupStyle "abandoned" = (Role.rail_default, 0.5) := by
  refine ⟨?_, ?_, ?_, ?_, ?_, ?_, ?_, ?_, ?_, ?_, ?_⟩ <;> simp [railGroupStyle]

/-- C10 counterexample: for a `highway: residential` edge the color
chain fires its dedicated residential arm while the width chain, which
has no such arm, falls through to its default arm — the two classifiers
do not take the same branch. -/
theorem C10_counterexample :
    colorBranchOf ⟨TagVal.single "residential", TagVal.absent⟩ = Branch.residential ∧
    widthBranchOf ⟨TagVal.single "residential", TagVal.absent⟩ = Branch.highwayDefault ∧
    Branch.residential ≠ Branch.highwayDefault := by
  refine ⟨by simp [colorBranchOf, pyTruthy, railwayNorm, highwayNorm],
    by simp [widthBranchOf, pyTruthy, railwayNorm, highwayNorm], by simp⟩

/-- C10 (amended): the two classifiers each produce exactly one entry per
edge in the same edge-iteration order; every edge's (color role, width)
pair corresponds to a single row of the section-6 style table — a rail
row exactly when the railway tag is truthy, a highway row otherwise —
even though the width chain has no residential arm (residential-class
edges take its default arm, whose width 0.4 equals the residential
row's). -/
theorem C10_color_width_consistency (g : List EdgeData) :
    (get_edge_colors_by_type g).length = g.length ∧
    (get_edge_widths_by_type g).length = g.length ∧
    ((get_edge_colors_by_type g).zip (get_edge_widths_by_type g) =
      g.map fun data => (edgeColorOf data, edgeWidthOf data)) ∧
    (∀ data ∈ g, (edgeColorOf data, edgeWidthOf data) ∈ styleTableSpec) ∧
    (∀ data ∈ g, pyTruthy (railwayNorm data.railway) = true →
      (edgeColorOf data, edgeWidthOf data) ∈ styleTableSpec.take 5) ∧
    (∀ data ∈ g, pyTruthy (railwayNorm data.railway) = false →
      (edgeColorOf data, edgeWidthOf data) ∈ styleTableSpec.drop 5) := by
  refine ⟨?_, ?_, ?_, fun data _ => pair_mem_styleTableSpec data,
    fun data _ h => rail_pair_mem data h, fun data _ h => road_pair_mem data h⟩
  · simp [get_edge_colors_by_type]
  · simp [get_edge_widths_by_type]
  · simp [get_edge_colors_by_type, get_edge_widths_by_type, List.zip_map']

/-- Witness for C10 on a two-edge graph: a residential street edge and a
heavy-rail edge. -/
theorem C10_color_width_consistency_witness :
    (edgeColorOf ⟨TagVal.absent, TagVal.single "rail"⟩,
      edgeWidthOf ⟨TagVal.absent, TagVal.single "rail"⟩) ∈ styleTableSpec.take 5 ∧
    (edgeColorOf ⟨TagVal.single "residential", TagVal.absent⟩,
      edgeWidthOf ⟨TagVal.single "residential", TagVal.absent⟩) ∈ styleTableSpec.drop 5 := by
  have h := C10_color_width_consistency
    [⟨TagVal.single "residential", TagVal.absent⟩, ⟨TagVal.absent, TagVal.single "rail"⟩]
  exact ⟨h.2.2.2.2.1 ⟨TagVal.absent, TagVal.single "rail"⟩ (by simp) rfl,
    h.2.2.2.2.2 ⟨TagVal.single "residential", TagVal.absent⟩ (by simp) rfl⟩

/-- C7: fetch errors surface as an absent value, not an exception — a
failed remote graph fetch makes `fetch_graph` return `none` and a failed
remote feature fetch makes `fetch_features` return `none` (both are
total functions into `Option`); the caller aborts with an explicit error
exactly when the network graph is absent, and otherwise completes the
render treating each absent feature collection as a missing layer. -/
theorem C7_fetch_error_semantics :
    (∀ (G : Type) (msg : String),
      fetch_graph (G := G) none (Except.error msg) = none) ∧
    (∀ (F : Type) (msg : String),
      fetch_features (F := F) none (Except.error msg) = none) ∧
    (∀ (G F : Type) (center_x center_y dist width height : ℚ)
      (gc : Option G) (gr : Except String G)
      (wc : Option F) (wrem : Except String F)
      (pc : Option F) (prem : Except String F)
      (rc : Option F) (rrem : Except String F),
      fetch_graph gc gr = none →
        create_poster center_x center_y dist width height gc gr wc wrem pc prem rc rrem =
          Except.error "Failed to retrieve street network data.") ∧
    (∀ (G F : Type) (center_x center_y dist width height : ℚ)
      (gc : Option G) (gr : Except String G)
      (wc : Option F) (wrem : Except String F)
      (pc : Option F) (prem : Except String F)
      (rc : Option F) (rrem : Except String F) (g : G),
      fetch_graph gc gr = some g →
        create_poster center_x center_y dist width height gc gr wc wrem pc prem rc rrem =
          Except.ok
            { crop_xlim := (get_crop_limits center_x center_y width height
                (compensated_dist dist width height)).1,
              crop_ylim := (get_crop_limits center_x center_y width height
                (compensated_dist dist width height)).2,
              hasWater := (fetch_features wc wrem).isSome,
              hasParks := (fetch_features pc prem).isSome,
              hasRailways := (fetch_features rc rrem).isSome }) := by
  refine ⟨fun G msg => rfl, fun F msg => rfl, ?_, ?_⟩
  · intro G F center_x center_y dist width height gc gr wc wrem pc prem rc rrem h
    simp only [create_poster, h]
  · intro G F center_x center_y dist width height gc gr wc wrem pc prem rc rrem g h
    simp only [create_poster, h]

/-- Witness for C7: a failed required fetch aborts the run with the
explicit message, while a run whose optional water fetch fails still
completes, without the water layer. -/
theorem C7_fetch_error_semantics_witness :
    create_poster (G := Unit) (F := Unit) 0 0 1000 12 16
        none (Except.error "osmnx down") none (Except.ok ())
        none (Except.ok ()) none (Except.ok ()) =
      Except.error "Failed to retrieve street network data." ∧
    create_poster (G := Unit) (F := Unit) 0 0 1000 12 16
        none (Except.ok ()) none (Except.error "osmnx down")
        none (Except.ok ()) none (Except.ok ()) =
      Except.ok
        { crop_xlim := (get_crop_limits 0 0 12 16 (compensated_dist 1000 12 16)).1,
          crop_ylim := (get_crop_limits 0 0 12 16 (compensated_dist 1000 12 16)).2,
          hasWater := false, hasParks := true, hasRailways := true } := by
  constructor
  · exact C7_fetch_error_semantics.2.2.1 Unit Unit 0 0 1000 12 16
      none (Except.error "osmnx down") none (Except.ok ())
      none (Except.ok ()) none (Except.ok ()) rfl
  · have h := C7_fetch_error_semantics.2.2.2 Unit Unit 0 0 1000 12 16
      none (Except.ok ()) none (Except.error "osmnx down")
      none (Except.ok ()) none (Except.ok ()) () rfl
    rw [h]; rfl

/-- Characterization of `is_latin_script`: true exactly when the text has
no alphabetic character or strictly more than 80% of its alphabetic
characters have code points below U+0250. -/
lemma is_latin_script_iff (isalpha : Char → Bool) (text : List Char) :
    is_latin_script isalpha text = true ↔
      (text.countP (fun c => isalpha c) = 0 ∨
        4 * text.countP (fun c => isalpha c) <
          5 * text.countP (fun c => isalpha c && decide (c.toNat < 0x250))) := by
  rcases text with _ | ⟨c, cs⟩
  · simp [is_latin_script]
  · rw [is_latin_script]
    simp only [List.isEmpty_cons, Bool.false_eq_true, if_false]
    by_cases h0 : (c :: cs).countP (fun c => isalpha c) = 0
    · simp [h0]
    · rw [if_neg h0, decide_eq_true_iff]
      have htpos : (0 : ℚ) <
          ((c :: cs).countP (fun c => isalpha c) : ℚ) := by
        exact_mod_cast Nat.pos_of_ne_zero h0
      rw [gt_iff_lt, show (0.8 : ℚ) = 4 / 5 by norm_num,
        div_lt_div_iff₀ (by norm_num) htpos,
        mul_comm ((c :: cs).countP (fun c => isalpha c && decide (c.toNat < 0x250)) : ℚ) 5]
      constructor
      · intro h
        exact Or.inr (by exact_mod_cast h)
      · rintro (h | h)
        · exact absurd h h0
        · exact_mod_cast h

/-- C8: a string is classified Latin-script iff strictly more than 80% of
its alphabetic characters (per the external `isalpha` classifier) have
code points below U+0250, with strings having no alphabetic characters —
the empty string included — classified Latin; a nonempty string all of
whose characters are alphabetic with code points at or above U+0250
(e.g. pure Han/Thai/Arabic text) is classified non-Latin. -/
theorem C8_script_detection :
    (∀ (isalpha : Char → Bool) (text : List Char),
      (is_latin_script isalpha text = true ↔
        (text.countP (fun c => isalpha c) = 0 ∨
          4 * text.countP (fun c => isalpha c) <
            5 * text.countP (fun c => isalpha c && decide (c.toNat < 0x250))))) ∧
    (∀ (isalpha : Char → Bool) (text : List Char), text ≠ [] →
      (∀ c ∈ text, isalpha c = true ∧ 0x250 ≤ c.toNat) →
        is_latin_script isalpha text = false) ∧
    (∀ isalpha : Char → Bool, is_latin_script isalpha [] = true) := by
  refine ⟨is_latin_script_iff, ?_, fun isalpha => rfl⟩
  intro isalpha text hne hall
  have hl : text.countP (fun c => isalpha c && decide (c.toNat < 0x250)) = 0 := by
    rw [List.countP_eq_zero]
    intro c hc
    have h := hall c hc
    simp [h.1, Nat.not_lt.mpr h.2]
  have ht : text.countP (fun c => isalpha c) = text.length :=
    List.countP_eq_length.mpr fun c hc => (hall c hc).1
  have hlen : text.length ≠ 0 := fun h => hne (List.length_eq_zero.mp h)
  cases hb : is_latin_script isalpha text
  · rfl
  · exfalso
    rcases (is_latin_script_iff isalpha text).mp hb with h | h
    · exact hlen (ht ▸ h)
    · rw [hl, ht] at h
      omega

/-- Witness for C8: the two-character Han string "中文", with an
alphabetic classifier accepting CJK ideographs, is non-Latin. -/
theorem C8_script_detection_witness :
    is_latin_script (fun c => decide (0x4E00 ≤ c.toNat))
      [Char.ofNat 0x4E2D, Char.ofNat 0x6587] = false := by
  exact C8_script_detection.2.1 (fun c => decide (0x4E00 ≤ c.toNat))
    [Char.ofNat 0x4E2D, Char.ofNat 0x6587] (by simp) (by decide)

/-- C9: the main-title size is the scaled base size `60 * scale` for
display names of at most 10 characters, and
`max (60 * scale * (10 / length)) (10 * scale)` — the proportionally
shrunk size floored at the minimum readable size — for longer names; at
figure 12 by 16 (scale 1) a 5-character name yields 60 and a
20-character name yields `60 * 10/20`. -/
theorem C9_title_scaling :
    (∀ (name : List Char) (width height : ℚ), name.length ≤ 10 →
      adjusted_font_size name width height = 60 * (min height width / 12)) ∧
    (∀ (name : List Char) (width height : ℚ), 10 < name.length →
      adjusted_font_size name width height =
        max (60 * (min height width / 12) * (10 / (name.length : ℚ)))
            (10 * (min height width / 12))) ∧
    (∀ name : List Char, name.length = 5 →
      adjusted_font_size name 12 16 = 60) ∧
    (∀ name : List Char, name.length = 20 →
      adjusted_font_size name 12 16 = 60 * (10 / 20)) := by
  refine ⟨?_, ?_, ?_, ?_⟩
  · intro name width height hle
    simp only [adjusted_font_size]
    rw [if_neg (by omega)]
  · intro name width height hgt
    simp only [adjusted_font_size]
    rw [if_pos hgt]
  · intro name h
    simp only [adjusted_font_size, h]
    norm_num [min_def]
  · intro name h
    simp only [adjusted_font_size, h]
    rw [if_pos (by norm_num)]
    norm_num [min_def, max_def]

/-- Witness for C9 with concrete names of lengths 5, 20, 10 and 12. -/
theorem C9_title_scaling_witness :
    adjusted_font_size (List.replicate 5 'a') 12 16 = 60 ∧
    adjusted_font_size (List.replicate 20 'a') 12 16 = 60 * (10 / 20) ∧
    adjusted_font_size (List.replicate 10 'a') 12 16 =
      60 * (min (16 : ℚ) 12 / 12) ∧
    adjusted_font_size (List.replicate 12 'a') 12 16 =
      max (60 * (min (16 : ℚ) 12 / 12) * (10 / ((List.replicate 12 'a').length : ℚ)))
          (10 * (min (16 : ℚ) 12 / 12)) := by
  refine ⟨C9_title_scaling.2.2.1 _ (by simp),
    C9_title_scaling.2.2.2 _ (by simp),
    C9_title_scaling.1 _ 12 16 (by simp),
    C9_title_scaling.2.1 _ 12 16 (by simp)⟩

end MapToPoster
